import Mathlib

/-!
Verification of the reporting layer of the Centurion Coffee Connect dashboard
(`src/dashboard.py`).

Shallow embedding conventions:
* A `Row` is one purchase event.  `Date` is modelled as an `Int` counting days
  (the code compares `pandas` timestamps with a total order and subtracts
  `pd.Timedelta(days=N)`; day units suffice for the day-granularity data).
* `Price` is modelled as an exact rational (`ℚ`), the idealisation of the
  decimal amounts the code sums.
* The `ERP` column may hold numbers or strings; the code compares
  `purchase_data.ERP.astype(str) == str(erp_id)`, so the column value is a
  sum type and the comparison goes through its string form (`ErpVal.toStr`).
* `groupby(col).Price.sum()` is modelled by `groupSum`: one `(key, sum)`
  pair per distinct key, in deterministic first-occurrence order (the spec
  leaves the cross-group order as a deterministic choice of the implementation).
* Dash callbacks receive `None` when a control is cleared; this is `Option`.
  A computation that raises a Python exception is an `Except.error`.
-/

namespace CoffeeConnect

/-- The ERP column value of one row: the spreadsheet may hold numbers or
strings; the code always coerces with `astype(str)` before comparing. -/
inductive ErpVal : Type where
  | num (n : Int)
  | str (s : String)
deriving DecidableEq

/-- `astype(str)` on one ERP value. -/
def ErpVal.toStr : ErpVal → String
  | .num n => toString n
  | .str s => s

/-- One purchase event (one row of `purchase_data`). -/
structure Row : Type where
  date : Int
  product : String
  price : ℚ
  erp : ErpVal
deriving DecidableEq

/-- `df.Price.sum()` over a list of rows. -/
def sumPrices (l : List Row) : ℚ :=
  (l.map Row.price).sum

/-- `df.groupby(key).Price.sum()`: one `(k, sum)` pair per distinct key of
the input, keys in first-occurrence order, each paired with the sum of `Price`
over the rows carrying that key. -/
def groupSum {K : Type} [DecidableEq K] (table : List Row) (key : Row → K) :
    List (K × ℚ) :=
  ((table.map key).dedup).map
    (fun k => (k, sumPrices (table.filter (fun r => decide (key r = k)))))

/-- `purchase_data.Date.max()` (dashboard.py line 121 / 141): `none` on an
empty table (pandas `NaT`), otherwise the maximum date. -/
def dateMax : List Row → Option Int
  | [] => none
  | r :: rs =>
    match dateMax rs with
    | none => some r.date
    | some m => some (max r.date m)

/-- The rows selected by
`purchase_data[(purchase_data.Date >= start_date) & (purchase_data.Date <= end_date)]`
with `end_date = purchase_data.Date.max()` and
`start_date = end_date - pd.Timedelta(days=d)` (dashboard.py lines 121-123).
On an empty table `max()` is `NaT` and every comparison is false. -/
def windowRows (table : List Row) (d : Int) : List Row :=
  match dateMax table with
  | none => []
  | some e => table.filter (fun r => decide (e - d ≤ r.date ∧ r.date ≤ e))

/-- Spec name `revenueByGroup`: group all rows by a column, sum `Price` per
group (dashboard.py line 33 with `key = Row.product`, line 66 with a month
key, line 168 with `Row.product` over a filtered table). -/
def revenueByGroup {K : Type} [DecidableEq K] (table : List Row) (key : Row → K) :
    List (K × ℚ) :=
  groupSum table key

/-- Overview total, `purchase_data.Price.sum()` (dashboard.py line 27). -/
def totalRevenue (table : List Row) : ℚ :=
  sumPrices table

/-- Spec name `revenueInWindow`, the aggregation of `update_daily_chart`
(dashboard.py lines 117-124): `if not selected_days: return {}` catches both
`None` and `0` (Python falsiness); otherwise filter to the inclusive window
and group the remaining rows by `Date`. -/
def revenueInWindow (table : List Row) (days : Option Int) : List (Int × ℚ) :=
  match days with
  | none => []
  | some d => if d = 0 then [] else groupSum (windowRows table d) Row.date

/-- The callback `update_daily_chart`: the data of its figure is exactly the
`revenueInWindow` aggregation. -/
def update_daily_chart (table : List Row) (selected_days : Option Int) :
    List (Int × ℚ) :=
  revenueInWindow table selected_days

/-- The error message of `pd.Timedelta(days=None)`, raised when the Product
Insights dropdown is cleared: `selected_days == 0` is false for `None`, so
the code reaches `pd.Timedelta(days=selected_days)` with `None`. -/
def timedeltaNoneError : String :=
  "TypeError: Invalid type NoneType. Must be int or float."

/-- Spec name `revenueByGroupInWindow`, the aggregation of
`update_product_pie_chart` (dashboard.py lines 137-145): `selected_days == 0`
means all time (no filter); any other integer is windowed exactly as in
`update_daily_chart`; a cleared dropdown (`None`) is not handled and raises
inside `pd.Timedelta`. -/
def revenueByGroupInWindow {K : Type} [DecidableEq K] (table : List Row)
    (key : Row → K) (days : Option Int) : Except String (List (K × ℚ)) :=
  if days = some 0 then Except.ok (groupSum table key)
  else
    match days with
    | some d => Except.ok (groupSum (windowRows table d) key)
    | none => Except.error timedeltaNoneError

/-- The callback `update_product_pie_chart`: pie over `Product`. -/
def update_product_pie_chart (table : List Row) (selected_days : Option Int) :
    Except String (List (String × ℚ)) :=
  revenueByGroupInWindow table Row.product selected_days

/-- Spec name `lookupByIdentifier` (dashboard.py lines 161-168): keep the rows
whose `ERP`, coerced to a string, equals the supplied identifier; `none` when
no row matches (`filtered_data.empty`), otherwise the scalar total and the
per-product breakdown. -/
def lookupByIdentifier (table : List Row) (erpId : String) :
    Option (ℚ × List (String × ℚ)) :=
  let filtered := table.filter (fun r => decide (ErpVal.toStr r.erp = erpId))
  if filtered = [] then none
  else some (sumPrices filtered, groupSum filtered Row.product)

/-- The three observable outcomes of the Enquiry callback: empty children
(line 179), the "No purchases found" heading (line 178), or the total heading
plus breakdown chart (lines 164-176). -/
inductive EnquiryOutput : Type where
  | idle : EnquiryOutput
  | notFound (erpId : String) : EnquiryOutput
  | found (erpId : String) (total : ℚ) (breakdown : List (String × ℚ)) : EnquiryOutput
deriving DecidableEq

/-- The callback `show_user_purchases` (dashboard.py lines 159-179):
`if n_clicks > 0 and erp_id:` — `erp_id` is truthy iff it is present and
non-empty; otherwise the callback returns empty children. -/
def show_user_purchases (table : List Row) (n_clicks : Nat)
    (erp_id : Option String) : EnquiryOutput :=
  match erp_id with
  | none => EnquiryOutput.idle
  | some id =>
    if 0 < n_clicks ∧ id ≠ "" then
      match lookupByIdentifier table id with
      | some (total, breakdown) => EnquiryOutput.found id total breakdown
      | none => EnquiryOutput.notFound id
    else EnquiryOutput.idle

/-- The raw spreadsheet as the black-box `pd.read_excel` yields it: which of
the required columns are present, whether the file could be read at all,
whether every `Date` cell parses, and the resulting typed rows. -/
structure RawData : Type where
  fileReadable : Bool
  hasDate : Bool
  hasProduct : Bool
  hasPrice : Bool
  hasErp : Bool
  datesParseable : Bool
  table : List Row

/-- Module-level load (dashboard.py lines 7-12): `pd.read_excel` then
`purchase_data.Date = pd.to_datetime(...)`, any exception re-raised with a
descriptive message.  A missing `Date` column is a `KeyError` inside the
`try`; missing `Product`, `Price` or `ERP` columns raise nothing here. -/
def loadPurchaseData (raw : RawData) : Except String (List Row) :=
  if raw.fileReadable = false then
    Except.error "An error occurred while loading the file: read failure"
  else if raw.hasDate = false then
    Except.error "An error occurred while loading the file: KeyError Date"
  else if raw.datesParseable = false then
    Except.error "An error occurred while loading the file: unparseable Date"
  else Except.ok raw.table

/-- Layout construction (dashboard.py lines 19-110), still at import time:
line 27 reads `purchase_data.Price`, line 33 groups by `Product`, line 66
groups by month of `Date`.  The `ERP` column is touched nowhere here. -/
def buildLayout (raw : RawData) (t : List Row) :
    Except String (ℚ × List (String × ℚ)) :=
  if raw.hasPrice = false then Except.error "KeyError: Price"
  else if raw.hasProduct = false then Except.error "KeyError: Product"
  else Except.ok (totalRevenue t, revenueByGroup t Row.product)

/-- Process startup: the module-level load followed by layout construction;
any uncaught exception aborts before `app.run_server`. -/
def startServer (raw : RawData) : Except String (List Row) := do
  let t ← loadPurchaseData raw
  let _ ← buildLayout raw t
  pure t

/-- One UI event delivered to a callback. -/
inductive Request : Type where
  | overview : Request
  | daily (d : Option Int) : Request
  | productPie (d : Option Int) : Request
  | enquiry (n : Nat) (id : Option String) : Request

/-- The artifact a callback renders for one event. -/
inductive Response : Type where
  | overviewFig (total : ℚ) (byProduct : List (String × ℚ)) : Response
  | dailyChart (data : List (Int × ℚ)) : Response
  | pieChart (data : Except String (List (String × ℚ))) : Response
  | enquiryOut (out : EnquiryOutput) : Response

/-- Dispatch of one event to its callback over the loaded table. -/
def handleRequest (t : List Row) : Request → Response
  | Request.overview => Response.overviewFig (totalRevenue t) (revenueByGroup t Row.product)
  | Request.daily d => Response.dailyChart (update_daily_chart t d)
  | Request.productPie d => Response.pieChart (update_product_pie_chart t d)
  | Request.enquiry n id => Response.enquiryOut (show_user_purchases t n id)

/-- The only process state: the table loaded at startup. -/
structure AppState : Type where
  table : List Row

/-- One event: the callbacks read `purchase_data` and never assign to it, so
the state after the event is the state before it. -/
def stepApp (s : AppState) (r : Request) : AppState × Response :=
  (s, handleRequest s.table r)

/-- A session: events processed one at a time (single-threaded shell). -/
def runApp (s : AppState) : List Request → AppState × List Response
  | [] => (s, [])
  | r :: rs =>
    let first := stepApp s r
    let rest := runApp first.1 rs
    (rest.1, first.2 :: rest.2)

/-- The worked example of the spec: (2024-01-01, "Latte", 150, "E1"),
(2024-01-02, "Latte", 200, "E1"), (2024-01-02, "Mocha", 100, "E2"), with
2024-01-01 as day 0. -/
def sampleTable : List Row :=
  [⟨0, "Latte", 150, ErpVal.str "E1"⟩,
   ⟨1, "Latte", 200, ErpVal.str "E1"⟩,
   ⟨1, "Mocha", 100, ErpVal.str "E2"⟩]

/-- A one-row table: every row carries the maximum date. -/
def singleDayTable : List Row :=
  [⟨0, "Latte", 150, ErpVal.str "E1"⟩]

/-- A raw spreadsheet whose only defect is a missing `ERP` column. -/
def rawNoErp : RawData :=
  ⟨true, true, true, true, false, true, sampleTable⟩

lemma sumPrices_nil : sumPrices [] = 0 := rfl

lemma sumPrices_cons (r : Row) (l : List Row) :
    sumPrices (r :: l) = r.price + sumPrices l := by
  simp [sumPrices]

lemma dateMax_eq_none {t : List Row} (h : dateMax t = none) : t = [] := by
  cases t with
  | nil => rfl
  | cons r rs =>
    cases hrs : dateMax rs <;> simp [dateMax, hrs] at h

lemma dateMax_isSome {t : List Row} (h : t ≠ []) : ∃ e, dateMax t = some e := by
  cases t with
  | nil => exact absurd rfl h
  | cons r rs =>
    cases hrs : dateMax rs with
    | none => exact ⟨r.date, by simp [dateMax, hrs]⟩
    | some m => exact ⟨max r.date m, by simp [dateMax, hrs]⟩

lemma dateMax_mem : ∀ {t : List Row} {e : Int},
    dateMax t = some e → e ∈ t.map Row.date := by
  intro t
  induction t with
  | nil => intro e h; cases h
  | cons r rs ih =>
    intro e h
    cases hrs : dateMax rs with
    | none =>
      simp [dateMax, hrs] at h
      simp [h]
    | some m =>
      simp [dateMax, hrs] at h
      rcases max_choice r.date m with hm | hm
      · simp [← h, hm]
      · have := ih hrs
        simp [← h, hm]
        right
        simpa using this

lemma dateMax_ge : ∀ {t : List Row} {e : Int},
    dateMax t = some e → ∀ r ∈ t, r.date ≤ e := by
  intro t
  induction t with
  | nil => intro e _ r hr; cases hr
  | cons x rs ih =>
    intro e h r hr
    cases hrs : dateMax rs with
    | none =>
      have hnil : rs = [] := dateMax_eq_none hrs
      simp [dateMax, hrs] at h
      subst hnil
      rcases List.mem_singleton.mp hr with hx
      simp [hx, ← h]
    | some m =>
      simp [dateMax, hrs] at h
      rcases List.mem_cons.mp hr with hx | hx
      · subst hx
        rw [← h]
        exact le_max_left _ _
      · calc r.date ≤ m := ih hrs r hx
          _ ≤ e := by rw [← h]; exact le_max_right _ _

lemma windowRows_eq {table : List Row} {e : Int} (he : dateMax table = some e)
    (d : Int) :
    windowRows table d
      = table.filter (fun r => decide (e - d ≤ r.date ∧ r.date ≤ e)) := by
  simp [windowRows, he]

lemma mem_windowRows {table : List Row} {e : Int} (he : dateMax table = some e)
    (d : Int) (r : Row) :
    r ∈ windowRows table d ↔ r ∈ table ∧ (e - d ≤ r.date ∧ r.date ≤ e) := by
  rw [windowRows_eq he]
  simp [List.mem_filter]

lemma fibers_sum_cons {K : Type} [DecidableEq K] (key : Row → K) (r : Row)
    (l : List Row) :
    ∀ (keys : List K), keys.Nodup → key r ∈ keys →
    (keys.map (fun k => sumPrices ((r :: l).filter (fun x => decide (key x = k))))).sum
      = r.price
        + (keys.map (fun k => sumPrices (l.filter (fun x => decide (key x = k))))).sum := by
  intro keys
  induction keys with
  | nil => intro _ hr; cases hr
  | cons k ks ih =>
    intro hnd hr
    by_cases hk : key r = k
    · have hnotks : key r ∉ ks := by
        rw [hk]
        exact (List.nodup_cons.mp hnd).1
      have htail : ks.map (fun q => sumPrices ((r :: l).filter (fun x => decide (key x = q))))
          = ks.map (fun q => sumPrices (l.filter (fun x => decide (key x = q)))) := by
        apply List.map_congr_left
        intro q hq
        have hne : key r ≠ q := fun hcon => hnotks (hcon ▸ hq)
        simp [List.filter_cons, hne]
      have hhead : (r :: l).filter (fun x => decide (key x = k))
          = r :: l.filter (fun x => decide (key x = k)) := by
        simp [List.filter_cons, hk]
      simp only [List.map_cons, List.sum_cons, htail, hhead, sumPrices_cons]
      ring
    · have hrk : key r ∈ ks := by
        rcases List.mem_cons.mp hr with hcon | hks
        · exact absurd hcon hk
        · exact hks
      have hhead : (r :: l).filter (fun x => decide (key x = k))
          = l.filter (fun x => decide (key x = k)) := by
        simp [List.filter_cons, hk]
      simp only [List.map_cons, List.sum_cons, hhead,
        ih (List.nodup_cons.mp hnd).2 hrk]
      ring

lemma fibers_cover_sum {K : Type} [DecidableEq K] (key : Row → K) :
    ∀ (l : List Row) (keys : List K), keys.Nodup → (∀ r ∈ l, key r ∈ keys) →
    (keys.map (fun k => sumPrices (l.filter (fun x => decide (key x = k))))).sum
      = sumPrices l := by
  intro l
  induction l with
  | nil =>
    intro keys _ _
    simp [sumPrices]
  | cons r t ih =>
    intro keys hnd hmem
    rw [fibers_sum_cons key r t keys hnd (hmem r (List.mem_cons_self r t))]
    rw [ih keys hnd (fun x hx => hmem x (List.mem_cons_of_mem r hx))]
    rw [sumPrices_cons]

/-- Conservation of the total: the per-group sums of `groupSum` add up to the
plain sum of `Price` over the whole input. -/
lemma groupSum_snd_sum {K : Type} [DecidableEq K] (table : List Row)
    (key : Row → K) :
    ((groupSum table key).map Prod.snd).sum = sumPrices table := by
  unfold groupSum
  rw [List.map_map]
  have hcomp : (Prod.snd ∘ fun k => (k, sumPrices (table.filter (fun r => decide (key r = k)))))
      = fun k => sumPrices (table.filter (fun r => decide (key r = k))) := rfl
  rw [hcomp]
  exact fibers_cover_sum key table ((table.map key).dedup) (List.nodup_dedup _)
    (fun r hr => List.mem_dedup.mpr (List.mem_map_of_mem key hr))

lemma runApp_state (s : AppState) : ∀ rs : List Request, (runApp s rs).1 = s := by
  intro rs
  induction rs with
  | nil => rfl
  | cons r t ih => simpa [runApp, stepApp] using ih

/-- C1: for every table and every choice of grouping column, the sum of the
per-group sums produced by `revenueByGroup` equals the sum of `Price` over
all rows of the table (conservation of total). -/
theorem spec_C1_revenue_conservation {K : Type} [DecidableEq K]
    (table : List Row) (key : Row → K) :
    ((revenueByGroup table key).map Prod.snd).sum = totalRevenue table :=
  groupSum_snd_sum table key

/-- Witness for C1 at the worked example of the spec, grouped by product. -/
theorem spec_C1_witness :
    ((revenueByGroup sampleTable Row.product).map Prod.snd).sum
      = totalRevenue sampleTable :=
  spec_C1_revenue_conservation sampleTable Row.product

/-- C2: the day-count value 0 in the Product Insights control skips filtering
entirely: `revenueByGroupInWindow table key (some 0)` succeeds with exactly
the `revenueByGroup` aggregation of the full table, for every grouping
column, and likewise for the callback over `Product`. -/
theorem spec_C2_alltime_sentinel {K : Type} [DecidableEq K]
    (table : List Row) (key : Row → K) :
    revenueByGroupInWindow table key (some 0)
        = Except.ok (revenueByGroup table key)
      ∧ update_product_pie_chart table (some 0)
        = Except.ok (revenueByGroup table Row.product) :=
  ⟨rfl, rfl⟩

/-- Witness for C2 at the worked example of the spec. -/
theorem spec_C2_witness :
    revenueByGroupInWindow sampleTable Row.product (some 0)
      = Except.ok (revenueByGroup sampleTable Row.product) :=
  (spec_C2_alltime_sentinel sampleTable Row.product).1

/-- C6 counterexample: clearing the Product Insights dropdown (`None`) does
not yield an empty chart placeholder; the callback raises inside
`pd.Timedelta(days=None)` because only the value 0 is special-cased. -/
theorem spec_C6_counterexample :
    update_product_pie_chart sampleTable none
      = Except.error timedeltaNoneError := rfl

/-- C6 amended: the Daily Trends callback treats an absent or falsy day count
as "no chart" and returns an empty result, but the Product Insights callback
handles only the value 0 (full table); an absent selection there raises a
`TypeError` instead of rendering an empty placeholder. -/
theorem spec_C6_amended_falsy_days :
    (∀ table : List Row,
        revenueInWindow table none = []
          ∧ revenueInWindow table (some 0) = []
          ∧ update_daily_chart table none = [])
      ∧ (∀ table : List Row,
          update_product_pie_chart table none = Except.error timedeltaNoneError)
      ∧ (∀ table : List Row,
          update_product_pie_chart table (some 0)
            = Except.ok (revenueByGroup table Row.product)) :=
  ⟨fun _ => ⟨rfl, rfl, rfl⟩, fun _ => rfl, fun _ => rfl⟩

/-- Witness for the amended C6 at the worked example of the spec. -/
theorem spec_C6_witness :
    revenueInWindow sampleTable none = []
      ∧ update_product_pie_chart sampleTable none
        = Except.error timedeltaNoneError :=
  ⟨(spec_C6_amended_falsy_days.1 sampleTable).1,
    spec_C6_amended_falsy_days.2.1 sampleTable⟩

/-- C8: the callbacks are deterministic and stateless: processing any history
of UI events leaves the application state (the loaded table) unchanged, and
the response to a request does not depend on the history that preceded it. -/
theorem spec_C8_stateless (t : List Row) (past other : List Request)
    (r : Request) :
    (runApp ⟨t⟩ past).1 = ⟨t⟩
      ∧ (stepApp (runApp ⟨t⟩ past).1 r).2 = (stepApp (runApp ⟨t⟩ other).1 r).2 := by
  refine ⟨runApp_state _ past, ?_⟩
  rw [runApp_state _ past, runApp_state _ other]

/-- Witness for C8: a repeated daily-chart request answers identically after
different histories over the worked example table. -/
theorem spec_C8_witness :
    (runApp ⟨sampleTable⟩ [Request.daily (some 7)]).1 = ⟨sampleTable⟩
      ∧ (stepApp (runApp ⟨sampleTable⟩ [Request.daily (some 7)]).1
            (Request.enquiry 1 (some "E1"))).2
        = (stepApp (runApp ⟨sampleTable⟩ []).1 (Request.enquiry 1 (some "E1"))).2 :=
  spec_C8_stateless sampleTable [Request.daily (some 7)] []
    (Request.enquiry 1 (some "E1"))

/-- C3: for every non-empty table and positive day count, `revenueInWindow`
aggregates exactly the rows whose `Date` lies in the inclusive window
`[max - d, max]`: a row at either boundary is included, a row strictly
outside is excluded, and the result is the group-by-`Date` sum over exactly
those rows. -/
theorem spec_C3_inclusive_window (table : List Row) (d : Int)
    (ht : table ≠ []) (hd : 0 < d) :
    ∃ e, dateMax table = some e
      ∧ (∀ r : Row, r ∈ windowRows table d
            ↔ r ∈ table ∧ e - d ≤ r.date ∧ r.date ≤ e)
      ∧ (∀ r ∈ table, r.date = e → r ∈ windowRows table d)
      ∧ (∀ r ∈ table, r.date = e - d → r ∈ windowRows table d)
      ∧ (∀ r ∈ table, r.date < e - d ∨ e < r.date → r ∉ windowRows table d)
      ∧ revenueInWindow table (some d)
          = revenueByGroup (windowRows table d) Row.date := by
  obtain ⟨e, he⟩ := dateMax_isSome ht
  have hdne : d ≠ 0 := by omega
  refine ⟨e, he, fun r => mem_windowRows he d r, ?_, ?_, ?_, ?_⟩
  · intro r hr hdate
    exact (mem_windowRows he d r).mpr ⟨hr, by omega, by omega⟩
  · intro r hr hdate
    exact (mem_windowRows he d r).mpr ⟨hr, by omega, by omega⟩
  · intro r hr hout hmem
    have hin := (mem_windowRows he d r).mp hmem
    omega
  · simp only [revenueInWindow]
    rw [if_neg hdne]
    rfl

/-- Witness for C3 at the worked example of the spec with a one-day window. -/
theorem spec_C3_witness :
    ∃ e, dateMax sampleTable = some e
      ∧ (∀ r : Row, r ∈ windowRows sampleTable 1
            ↔ r ∈ sampleTable ∧ e - 1 ≤ r.date ∧ r.date ≤ e)
      ∧ (∀ r ∈ sampleTable, r.date = e → r ∈ windowRows sampleTable 1)
      ∧ (∀ r ∈ sampleTable, r.date = e - 1 → r ∈ windowRows sampleTable 1)
      ∧ (∀ r ∈ sampleTable, r.date < e - 1 ∨ e < r.date
            → r ∉ windowRows sampleTable 1)
      ∧ revenueInWindow sampleTable (some 1)
          = revenueByGroup (windowRows sampleTable 1) Row.date :=
  spec_C3_inclusive_window sampleTable 1 (by decide) (by decide)

/-- C7: for every non-empty table and positive day count, the upper bound of
the time window used by `revenueInWindow` and `revenueByGroupInWindow` is the
maximum `Date` occurring in the table itself (a member of the date column
that bounds every row); the embedded callbacks take no clock input, so the
result is a function of the table and the day count alone. -/
theorem spec_C7_upper_bound_is_data_max (table : List Row) (d : Int)
    (ht : table ≠ []) (hd : 0 < d) :
    ∃ e, dateMax table = some e
      ∧ e ∈ table.map Row.date
      ∧ (∀ r ∈ table, r.date ≤ e)
      ∧ revenueInWindow table (some d)
          = revenueByGroup
              (table.filter (fun r => decide (e - d ≤ r.date ∧ r.date ≤ e)))
              Row.date
      ∧ revenueByGroupInWindow table Row.product (some d)
          = Except.ok (revenueByGroup
              (table.filter (fun r => decide (e - d ≤ r.date ∧ r.date ≤ e)))
              Row.product) := by
  obtain ⟨e, he⟩ := dateMax_isSome ht
  have hdne : d ≠ 0 := by omega
  have hw := windowRows_eq he d
  refine ⟨e, he, dateMax_mem he, dateMax_ge he, ?_, ?_⟩
  · simp only [revenueInWindow]
    rw [if_neg hdne, hw]
    rfl
  · have hsome : (some d : Option Int) ≠ some 0 := by simp [hdne]
    simp only [revenueByGroupInWindow]
    rw [if_neg hsome, hw]
    rfl

/-- Witness for C7 at the worked example of the spec with a one-day window. -/
theorem spec_C7_witness :
    ∃ e, dateMax sampleTable = some e
      ∧ e ∈ sampleTable.map Row.date
      ∧ (∀ r ∈ sampleTable, r.date ≤ e)
      ∧ revenueInWindow sampleTable (some 1)
          = revenueByGroup
              (sampleTable.filter (fun r => decide (e - 1 ≤ r.date ∧ r.date ≤ e)))
              Row.date
      ∧ revenueByGroupInWindow sampleTable Row.product (some 1)
          = Except.ok (revenueByGroup
              (sampleTable.filter (fun r => decide (e - 1 ≤ r.date ∧ r.date ≤ e)))
              Row.product) :=
  spec_C7_upper_bound_is_data_max sampleTable 1 (by decide) (by decide)

/-- C10 counterexample: on a one-row table whose only date is day 0, the span
between minimum and maximum `Date` is 0, so `days = 0` satisfies "days at
least as large as the span"; yet `revenueInWindow table (some 0)` is empty
(the falsy check fires) while grouping the full table by `Date` is not. -/
theorem spec_C10_counterexample :
    singleDayTable.map Row.date = [0]
      ∧ dateMax singleDayTable = some 0
      ∧ revenueInWindow singleDayTable (some 0) = []
      ∧ revenueByGroup singleDayTable Row.date = [(0, 150)]
      ∧ revenueInWindow singleDayTable (some 0)
          ≠ revenueByGroup singleDayTable Row.date := by
  have hg : revenueByGroup singleDayTable Row.date = [(0, 150)] := by
    simp [revenueByGroup, groupSum, singleDayTable, sumPrices]
  refine ⟨rfl, rfl, rfl, hg, ?_⟩
  rw [show revenueInWindow singleDayTable (some 0) = ([] : List (Int × ℚ)) from rfl,
    hg]
  simp

/-- C10 amended: the upper-bound test excludes no row, so the window filter
equals the single lower-bound condition; and for every positive day count at
least as large as the span between minimum and maximum `Date`,
`revenueInWindow` equals grouping the full table by `Date`. -/
theorem spec_C10_amended_upper_bound_vacuous (table : List Row) (d : Int)
    (ht : table ≠ []) (hd : 0 < d) :
    ∃ e, dateMax table = some e
      ∧ windowRows table d = table.filter (fun r => decide (e - d ≤ r.date))
      ∧ ((∀ r ∈ table, e - r.date ≤ d) →
          revenueInWindow table (some d) = revenueByGroup table Row.date) := by
  obtain ⟨e, he⟩ := dateMax_isSome ht
  have hdne : d ≠ 0 := by omega
  refine ⟨e, he, ?_, ?_⟩
  · rw [windowRows_eq he]
    apply List.filter_congr
    intro r hr
    have hle := dateMax_ge he r hr
    simp [hle]
  · intro hspan
    have hfull : windowRows table d = table := by
      rw [windowRows_eq he]
      apply List.filter_eq_self.mpr
      intro r hr
      have hle := dateMax_ge he r hr
      have hlo := hspan r hr
      simp only [decide_eq_true_eq]
      omega
    simp only [revenueInWindow]
    rw [if_neg hdne, hfull]
    rfl

/-- Witness for the amended C10: a two-day window covers the whole worked
example table, whose span is one day. -/
theorem spec_C10_witness :
    ∃ e, dateMax sampleTable = some e
      ∧ windowRows sampleTable 2
          = sampleTable.filter (fun r => decide (e - 2 ≤ r.date))
      ∧ ((∀ r ∈ sampleTable, e - r.date ≤ 2) →
          revenueInWindow sampleTable (some 2)
            = revenueByGroup sampleTable Row.date) :=
  spec_C10_amended_upper_bound_vacuous sampleTable 2 (by decide) (by decide)

lemma lookupByIdentifier_total {table : List Row} {id : String} {total : ℚ}
    {breakdown : List (String × ℚ)}
    (h : lookupByIdentifier table id = some (total, breakdown)) :
    total = (breakdown.map Prod.snd).sum := by
  simp only [lookupByIdentifier] at h
  by_cases hemp : table.filter (fun r => decide (ErpVal.toStr r.erp = id)) = []
  · rw [if_pos hemp] at h
    exact Option.noConfusion h
  · rw [if_neg hemp] at h
    simp only [Option.some.injEq, Prod.mk.injEq] at h
    rw [← h.1, ← h.2]
    exact (groupSum_snd_sum _ Row.product).symm

/-- C4: the Enquiry callback compares ERP values and the supplied identifier
as strings; with a positive click count and a non-empty identifier, a
non-empty match set yields the found outcome carrying the sum of the matched
`Price` values and the per-product breakdown, an empty match set yields the
distinguishable not-found outcome, and the two outcomes are never equal. -/
theorem spec_C4_lookup_outcomes (table : List Row) (id : String) (n : Nat)
    (hn : 0 < n) (hid : id ≠ "") :
    (table.filter (fun r => decide (ErpVal.toStr r.erp = id)) ≠ [] →
        show_user_purchases table n (some id)
          = EnquiryOutput.found id
              (sumPrices (table.filter (fun r => decide (ErpVal.toStr r.erp = id))))
              (revenueByGroup
                (table.filter (fun r => decide (ErpVal.toStr r.erp = id)))
                Row.product))
      ∧ (table.filter (fun r => decide (ErpVal.toStr r.erp = id)) = [] →
          show_user_purchases table n (some id) = EnquiryOutput.notFound id)
      ∧ (∀ (total : ℚ) (breakdown : List (String × ℚ)),
          EnquiryOutput.found id total breakdown ≠ EnquiryOutput.notFound id) := by
  refine ⟨?_, ?_, fun total breakdown hcon => EnquiryOutput.noConfusion hcon⟩
  · intro hne
    simp [show_user_purchases, lookupByIdentifier, hn, hid, hne, revenueByGroup]
  · intro hemp
    simp [show_user_purchases, lookupByIdentifier, hn, hid, hemp]

/-- Witness for C4 at the worked example of the spec: identifier E1 matches
two rows totalling 350; identifier E3 matches none. -/
theorem spec_C4_witness :
    show_user_purchases sampleTable 1 (some "E1")
        = EnquiryOutput.found "E1" 350 [("Latte", 350)]
      ∧ show_user_purchases sampleTable 1 (some "E3")
        = EnquiryOutput.notFound "E3" := by
  have hfil : sampleTable.filter (fun r => decide (ErpVal.toStr r.erp = "E1"))
      = [⟨0, "Latte", 150, ErpVal.str "E1"⟩, ⟨1, "Latte", 200, ErpVal.str "E1"⟩] := by
    simp [sampleTable, ErpVal.toStr]
  constructor
  · have h := (spec_C4_lookup_outcomes sampleTable "E1" 1 (by decide)
      (by decide)).1 (by rw [hfil]; simp)
    rw [h, hfil]
    unfold revenueByGroup groupSum
    rw [show (([⟨0, "Latte", 150, ErpVal.str "E1"⟩,
        ⟨1, "Latte", 200, ErpVal.str "E1"⟩] : List Row).map Row.product)
      = ["Latte", "Latte"] from rfl]
    rw [List.dedup_cons_of_mem (by simp), List.dedup_cons_of_not_mem (by simp),
      List.dedup_nil]
    norm_num [sumPrices]
  · exact (spec_C4_lookup_outcomes sampleTable "E3" 1 (by decide)
      (by decide)).2.1 (by simp [sampleTable, ErpVal.toStr])

/-- C9: whenever the Enquiry callback renders the found outcome, the scalar
total it displays equals the sum of the values of the per-product breakdown
it charts. -/
theorem spec_C9_found_total_consistency (table : List Row) (n : Nat)
    (erpIn : Option String) (id : String) (total : ℚ)
    (breakdown : List (String × ℚ))
    (h : show_user_purchases table n erpIn
        = EnquiryOutput.found id total breakdown) :
    total = (breakdown.map Prod.snd).sum := by
  cases erpIn with
  | none => simp [show_user_purchases] at h
  | some s =>
    simp only [show_user_purchases] at h
    by_cases hc : 0 < n ∧ s ≠ ""
    · rw [if_pos hc] at h
      cases hl : lookupByIdentifier table s with
      | none =>
        rw [hl] at h
        exact EnquiryOutput.noConfusion h
      | some p =>
        rw [hl] at h
        obtain ⟨tval, bval⟩ := p
        simp only [EnquiryOutput.found.injEq] at h
        rw [← h.2.1, ← h.2.2]
        exact lookupByIdentifier_total hl
    · rw [if_neg hc] at h
      exact EnquiryOutput.noConfusion h

/-- Witness for C9: the found outcome for E1 over the worked example table
displays total 350, the sum of its one-entry breakdown. -/
theorem spec_C9_witness :
    (350 : ℚ) = (([("Latte", (350 : ℚ))]).map Prod.snd).sum :=
  spec_C9_found_total_consistency sampleTable 1 (some "E1") "E1" 350
    [("Latte", 350)]
    (by
      have hfil : sampleTable.filter (fun r => decide (ErpVal.toStr r.erp = "E1"))
          = [⟨0, "Latte", 150, ErpVal.str "E1"⟩,
             ⟨1, "Latte", 200, ErpVal.str "E1"⟩] := by
        simp [sampleTable, ErpVal.toStr]
      simp only [show_user_purchases, lookupByIdentifier, hfil]
      rw [if_pos (by decide), if_neg (by simp)]
      unfold groupSum
      rw [show (([⟨0, "Latte", 150, ErpVal.str "E1"⟩,
          ⟨1, "Latte", 200, ErpVal.str "E1"⟩] : List Row).map Row.product)
        = ["Latte", "Latte"] from rfl]
      rw [List.dedup_cons_of_mem (by simp), List.dedup_cons_of_not_mem (by simp),
        List.dedup_nil]
      norm_num [sumPrices])

/-- C5 counterexample: a spreadsheet lacking only the ERP column loads, the
layout builds, and the server starts serving the table — startup does not
fail even though one of the four required columns is absent. -/
theorem spec_C5_counterexample :
    rawNoErp.hasErp = false ∧ startServer rawNoErp = Except.ok sampleTable :=
  ⟨rfl, rfl⟩

/-- C5 amended: startup fails exactly when the file is unreadable, the `Date`
column is missing or unparseable (the guarded loader), or the `Price` or
`Product` column is missing (layout construction, still before serving); a
missing `ERP` column alone does not abort startup, and startup otherwise
serves the loaded table. -/
theorem spec_C5_amended_startup_guard (raw : RawData) :
    ((∃ t, startServer raw = Except.ok t)
        ↔ raw.fileReadable = true ∧ raw.hasDate = true
            ∧ raw.datesParseable = true ∧ raw.hasPrice = true
            ∧ raw.hasProduct = true)
      ∧ (startServer raw = Except.ok raw.table
          ∨ ∃ msg, startServer raw = Except.error msg) := by
  obtain ⟨fr, hdt, hprod, hprice, herp, hdp, t⟩ := raw
  cases fr <;> cases hdt <;> cases hdp <;> cases hprice <;> cases hprod <;>
    simp [startServer, loadPurchaseData, buildLayout, Bind.bind, Except.bind,
      pure, Except.pure]

/-- Witness for the amended C5: a spreadsheet with all four columns and
parseable dates starts the server. -/
theorem spec_C5_witness :
    ∃ t, startServer (RawData.mk true true true true true true sampleTable)
      = Except.ok t :=
  ((spec_C5_amended_startup_guard
      (RawData.mk true true true true true true sampleTable)).1).mpr
    (by simp)

end CoffeeConnect
